import Mathlib

/-!
Verification of the Gephi MCP bridge (`mcp-server/gephi_mcp.py`).

The development shallowly embeds the bridge's transport client
(`GephiClient.request`), its result formatter (`fmt`, i.e.
`json.dumps(data, indent=2)`), and the per-tool forwarding bodies that the
checked claims mention.  Python dictionaries are embedded as association
lists preserving insertion order, and the behaviour of the underlying
`httpx` transport (connection failure, timeout, completed response, other
exception) is an explicit argument of the embedded request function, so
every theorem quantifies over all transport behaviours.
-/

/-- A JSON-representable-or-not Python value as it flows through the bridge:
`none`/`bool`/`int`/`str` scalars, insertion-ordered `list` and `dict`
containers, and `object ty` for a value of type `ty` that has no JSON
serialization (used to settle the formatter's behaviour on unrenderable
input).  Floats are not modelled; no checked claim mentions one. -/
inductive PyVal where
  | none
  | bool (b : Bool)
  | int (n : Int)
  | str (s : String)
  | list (xs : List PyVal)
  | dict (kvs : List (String × PyVal))
  | object (tyName : String)
deriving Repr

/-- A Python `dict` with string keys, as an insertion-ordered association list. -/
abbrev PyDict := List (String × PyVal)

/-- Model of Python `d.get(key, dflt)`: the first binding of `key` wins
(Python dict keys are unique), and `dflt` is returned when `key` is absent. -/
def dictGet (d : PyDict) (key : String) (dflt : PyVal) : PyVal :=
  match d with
  | [] => dflt
  | (k, v) :: rest => if k = key then v else dictGet rest key dflt

/-- Model of Python `key in d` / `d.get(key)`: first binding of `key`, if any. -/
def findKey (d : PyDict) (key : String) : Option PyVal :=
  match d with
  | [] => Option.none
  | (k, v) :: rest => if k = key then Option.some v else findKey rest key

/-- The single-quote character, written via its code point. -/
def squoteChar : Char := Char.ofNat 39

/-- A string wrapped in single quotes, as Python `repr` renders a `str`.
(The escaping Python applies inside the quotes for exotic strings is not
modelled; no checked claim renders such a string.) -/
def squoted (s : String) : String :=
  String.singleton squoteChar ++ s ++ String.singleton squoteChar

mutual
/-- Model of Python `repr` on the embedded values: `None`/`True`/`False`,
decimal integers, single-quoted strings, `[...]`/`{...}` containers with
`, `-separated elements in insertion order, and a `<ty object>` form for
non-serializable objects. -/
def pyRepr : PyVal → String
  | .none => "None"
  | .bool b => if b then "True" else "False"
  | .int n => toString n
  | .str s => squoted s
  | .list xs => "[" ++ String.intercalate ", " (pyReprList xs) ++ "]"
  | .dict kvs => "\x7b" ++ String.intercalate ", " (pyReprDict kvs) ++ "\x7d"
  | .object tyName => "<" ++ tyName ++ " object>"

/-- The `repr` of each element of a Python list, in order. -/
def pyReprList : List PyVal → List String
  | [] => []
  | x :: xs => pyRepr x :: pyReprList xs

/-- The `repr` of each `key: value` entry of a Python dict, in insertion order. -/
def pyReprDict : List (String × PyVal) → List String
  | [] => []
  | (k, v) :: kvs => (squoted k ++ ": " ++ pyRepr v) :: pyReprDict kvs
end

/-- Model of the Python builtin `str()`: the identity on strings, `repr`
otherwise (they agree on every other embedded type). -/
def pyStr : PyVal → String
  | .str s => s
  | v => pyRepr v

/-- The string of `n` space characters. -/
def spaces (n : Nat) : String := String.mk (List.replicate n ' ')

/-- Lower-case hexadecimal digit for `n < 16`. -/
def hexDigit (n : Nat) : Char :=
  if n < 10 then Char.ofNat (48 + n) else Char.ofNat (87 + n)

/-- Four lower-case hexadecimal digits of `n % 65536`. -/
def hex4 (n : Nat) : String :=
  String.mk [hexDigit (n / 4096 % 16), hexDigit (n / 256 % 16),
             hexDigit (n / 16 % 16), hexDigit (n % 16)]

/-- One character of a JSON string literal as `json.dumps` (default
`ensure_ascii=True`) emits it: the two-character escapes for quote,
backslash and the usual control characters, `\uXXXX` for every other
character outside printable ASCII (as a surrogate pair beyond the basic
multilingual plane), and the character itself otherwise. -/
def escapeJsonChar (c : Char) : String :=
  if c = '"' then "\\\""
  else if c = '\\' then "\\\\"
  else if c = '\n' then "\\n"
  else if c = '\t' then "\\t"
  else if c = '\r' then "\\r"
  else if c.toNat = 8 then "\\b"
  else if c.toNat = 12 then "\\f"
  else if c.toNat < 32 ∨ c.toNat > 126 then
    if c.toNat < 65536 then "\\u" ++ hex4 c.toNat
    else
      "\\u" ++ hex4 (55296 + (c.toNat - 65536) / 1024) ++
      "\\u" ++ hex4 (56320 + (c.toNat - 65536) % 1024)
  else String.singleton c

/-- A JSON string literal: the escaped characters between double quotes. -/
def jsonQuote (s : String) : String :=
  "\"" ++ String.join (s.data.map escapeJsonChar) ++ "\""

mutual
/-- Model of `json.dumps(v, indent=2)` at nesting depth `lvl`: scalars render
as JSON literals, containers render multi-line with two extra spaces of
indentation per level and entries in insertion order, and a value with no
JSON serialization raises `TypeError` (the `Except.error` case), exactly as
`json.dumps` does when no `default=` hook is given. -/
def dumpVal (lvl : Nat) : PyVal → Except String String
  | .none => Except.ok "null"
  | .bool b => Except.ok (if b then "true" else "false")
  | .int n => Except.ok (toString n)
  | .str s => Except.ok (jsonQuote s)
  | .object tyName =>
      Except.error ("Object of type " ++ tyName ++ " is not JSON serializable")
  | .list [] => Except.ok "[]"
  | .list (x :: xs) => do
      let items ← dumpList (lvl + 1) (x :: xs)
      Except.ok ("[\n" ++
        String.intercalate ",\n" (items.map (fun s => spaces ((lvl + 1) * 2) ++ s)) ++
        "\n" ++ spaces (lvl * 2) ++ "]")
  | .dict [] => Except.ok "\x7b\x7d"
  | .dict (kv :: kvs) => do
      let items ← dumpDict (lvl + 1) (kv :: kvs)
      Except.ok ("\x7b\n" ++
        String.intercalate ",\n" (items.map (fun s => spaces ((lvl + 1) * 2) ++ s)) ++
        "\n" ++ spaces (lvl * 2) ++ "\x7d")

/-- The rendered elements of a list value, in order; the first unserializable
element aborts the whole rendering, as in `json.dumps`. -/
def dumpList (lvl : Nat) : List PyVal → Except String (List String)
  | [] => Except.ok []
  | x :: xs => do
      let s ← dumpVal lvl x
      let rest ← dumpList lvl xs
      Except.ok (s :: rest)

/-- The rendered `"key": value` entries of a dict value, in insertion order. -/
def dumpDict (lvl : Nat) : List (String × PyVal) → Except String (List String)
  | [] => Except.ok []
  | (k, v) :: kvs => do
      let s ← dumpVal lvl v
      let rest ← dumpDict lvl kvs
      Except.ok ((jsonQuote k ++ ": " ++ s) :: rest)
end

/-- Embedding of the module-level formatter
`def fmt(data): return json.dumps(data, indent=2)`.
`Except.error` is a raised `TypeError`, not a returned string. -/
def fmt (data : PyVal) : Except String String := dumpVal 0 data

mutual
/-- Holds iff the value contains no `object` (i.e. `json.dumps` accepts it). -/
def serializable : PyVal → Bool
  | .none => true
  | .bool _ => true
  | .int _ => true
  | .str _ => true
  | .object _ => false
  | .list xs => serializableList xs
  | .dict kvs => serializableDict kvs

/-- Every element of the list is serializable. -/
def serializableList : List PyVal → Bool
  | [] => true
  | x :: xs => serializable x && serializableList xs

/-- Every value of the dict is serializable. -/
def serializableDict : List (String × PyVal) → Bool
  | [] => true
  | (_, v) :: kvs => serializable v && serializableDict kvs
end

/-- The module constant `GEPHI_API_URL = "http://127.0.0.1:8080"`. -/
def GEPHI_API_URL : String := "http://127.0.0.1:8080"

/-- Python `s.rstrip("/")`: drop every trailing slash. -/
def rstripSlashes (s : String) : String :=
  String.mk (s.data.reverse.dropWhile (fun c => c = '/')).reverse

/-- The state of a `GephiClient`: the configured base address
(`self.base_url`).  The fixed per-call timeout duration
(`REQUEST_TIMEOUT = 60.0`, a float) is not itself modelled; only which
transport behaviour — completion, connection failure, timeout expiry —
the call exhibits is, via `TransportResult`. -/
structure GephiClient where
  base_url : String

/-- Embedding of `GephiClient.__init__`: stores `base_url.rstrip("/")`. -/
def GephiClient.init (base_url : String) : GephiClient :=
  ⟨rstripSlashes base_url⟩

/-- The module-level client `gephi = GephiClient()`. -/
def gephi : GephiClient := GephiClient.init GEPHI_API_URL

/-- An `httpx` response as the bridge observes it: the status code, the raw
body text (`response.text`), and the result of calling `response.json()` —
either the parsed value or the message of the raised decoding exception.
The parse result is an oracle supplied by the environment because the JSON
parser lives in `httpx`, outside this repository. -/
structure HttpResponse where
  status_code : Nat
  text : String
  jsonResult : Except String PyVal

/-- How the underlying `httpx` call behaves on one invocation: it completes
with a response (of any status), raises `httpx.ConnectError`, raises
`httpx.TimeoutException`, or raises some other exception whose `str()` is
`msg`.  This is the environment's half of `GephiClient.request`. -/
inductive TransportResult where
  | completed (response : HttpResponse)
  | connectError
  | timeoutException
  | otherException (msg : String)

/-- The tuple the bridge hands to
`client.request(method=method, url=url, params=params, json=json_data)`:
everything that crosses the process boundary toward Gephi. -/
structure SentRequest where
  method : String
  url : String
  params : Option (List (String × PyVal))
  json : Option PyVal

/-- The uniform failure dictionary `{"success": False, "error": msg}` that
every exception handler of `GephiClient.request` returns. -/
def failureResult (msg : String) : PyVal :=
  PyVal.dict [("success", PyVal.bool false), ("error", PyVal.str msg)]

/-- Embedding of `GephiClient.request` (gephi_mcp.py lines 40–59),
instrumented to also return the request passed to the transport.  The
`transport` argument is the behaviour of the single underlying `httpx`
call.  Branch by branch: a completed 2xx response returns
`response.json()`, whose decoding failure falls to the final generic
handler (`"Request failed: ..."`); a completed non-2xx response makes
`raise_for_status` raise `HTTPStatusError`, whose handler returns the
response body re-parsed as JSON when that parse succeeds and otherwise
`"HTTP <status>: <text>"`; `ConnectError` and `TimeoutException` return
their fixed diagnostic dictionaries; any other exception returns
`"Request failed: <str(e)>"`. -/
def GephiClient.request (self : GephiClient) (method : String) (endpoint : String)
    (params : Option (List (String × PyVal))) (json_data : Option PyVal)
    (transport : TransportResult) : SentRequest × PyVal :=
  let url := self.base_url ++ endpoint
  let outcome : PyVal :=
    match transport with
    | .completed response =>
        if 200 ≤ response.status_code ∧ response.status_code < 300 then
          match response.jsonResult with
          | .ok body => body
          | .error msg => failureResult ("Request failed: " ++ msg)
        else
          match response.jsonResult with
          | .ok body => body
          | .error _ =>
              failureResult ("HTTP " ++ toString response.status_code ++ ": " ++
                response.text)
    | .connectError =>
        failureResult ("Cannot connect to Gephi at " ++ self.base_url ++
          ". Ensure Gephi is running with the MCP plugin installed.")
    | .timeoutException =>
        failureResult "Request timed out. The operation may still be running in Gephi."
    | .otherException msg =>
        failureResult ("Request failed: " ++ msg)
  (⟨method, url, params, json_data⟩, outcome)

/-- Tool `gephi_health_check` — the one tool whose Python function takes no
parameter object at all: `fmt(await gephi.request("GET", "/health"))`. -/
def gephi_health_check (transport : TransportResult) :
    SentRequest × Except String String :=
  let r := gephi.request "GET" "/health" Option.none Option.none transport
  (r.1, fmt r.2)

/-- Tool `gephi_new_workspace(params)`:
`fmt(await gephi.request("POST", "/workspace/new"))` — `params` is accepted
and ignored. -/
def gephi_new_workspace (params : PyDict) (transport : TransportResult) :
    SentRequest × Except String String :=
  let r := gephi.request "POST" "/workspace/new" Option.none Option.none transport
  (r.1, fmt r.2)

/-- Tool `gephi_switch_workspace(params)`:
`fmt(await gephi.request("POST", "/workspace/switch", json_data=params))`. -/
def gephi_switch_workspace (params : PyDict) (transport : TransportResult) :
    SentRequest × Except String String :=
  let r := gephi.request "POST" "/workspace/switch" Option.none
    (Option.some (PyVal.dict params)) transport
  (r.1, fmt r.2)

/-- Tool `gephi_delete_workspace(params)`:
`fmt(await gephi.request("DELETE", "/workspace/delete",
params={"index": str(params.get("index", 0))}))`. -/
def gephi_delete_workspace (params : PyDict) (transport : TransportResult) :
    SentRequest × Except String String :=
  let r := gephi.request "DELETE" "/workspace/delete"
    (Option.some [("index", PyVal.str (pyStr (dictGet params "index" (PyVal.int 0))))])
    Option.none transport
  (r.1, fmt r.2)

/-- Tool `gephi_remove_node(params)`:
`node_id = params.get("id", "")` then
`fmt(await gephi.request("DELETE", f"/graph/node/{node_id}"))`; the f-string
applies `str()` to `node_id`. -/
def gephi_remove_node (params : PyDict) (transport : TransportResult) :
    SentRequest × Except String String :=
  let node_id := dictGet params "id" (PyVal.str "")
  let r := gephi.request "DELETE" ("/graph/node/" ++ pyStr node_id)
    Option.none Option.none transport
  (r.1, fmt r.2)

/-- Tool `gephi_query_nodes(params)`:
`query_params = {"limit": params.get("limit", 100), "offset": params.get("offset", 0)}`
then `fmt(await gephi.request("GET", "/graph/nodes", params=query_params))`. -/
def gephi_query_nodes (params : PyDict) (transport : TransportResult) :
    SentRequest × Except String String :=
  let query_params :=
    [("limit", dictGet params "limit" (PyVal.int 100)),
     ("offset", dictGet params "offset" (PyVal.int 0))]
  let r := gephi.request "GET" "/graph/nodes" (Option.some query_params)
    Option.none transport
  (r.1, fmt r.2)

/-- Tool `gephi_query_edges(params)`:
`query_params = {"limit": params.get("limit", 100), "offset": params.get("offset", 0)}`
then `fmt(await gephi.request("GET", "/graph/edges", params=query_params))`. -/
def gephi_query_edges (params : PyDict) (transport : TransportResult) :
    SentRequest × Except String String :=
  let query_params :=
    [("limit", dictGet params "limit" (PyVal.int 100)),
     ("offset", dictGet params "offset" (PyVal.int 0))]
  let r := gephi.request "GET" "/graph/edges" (Option.some query_params)
    Option.none transport
  (r.1, fmt r.2)

/-- One entry of the caller-facing tool catalog: the operation name declared
in its `@mcp.tool(name=...)` decorator, and whether the decorated Python
function takes the single `params: dict` parameter object. -/
structure ToolDecl where
  name : String
  takesParams : Bool
deriving DecidableEq, Repr

/-- The complete tool catalog of gephi_mcp.py, in source order.  Every
decorated function has the signature `async def f(params: dict) -> str`
except `gephi_health_check`, declared `async def gephi_health_check() -> str`
with no parameter object. -/
def gephiToolCatalog : List ToolDecl :=
  [⟨"gephi_health_check", false⟩,
   ⟨"gephi_create_project", true⟩,
   ⟨"gephi_open_project", true⟩,
   ⟨"gephi_save_project", true⟩,
   ⟨"gephi_get_project_info", true⟩,
   ⟨"gephi_new_workspace", true⟩,
   ⟨"gephi_list_workspaces", true⟩,
   ⟨"gephi_switch_workspace", true⟩,
   ⟨"gephi_delete_workspace", true⟩,
   ⟨"gephi_add_node", true⟩,
   ⟨"gephi_add_nodes", true⟩,
   ⟨"gephi_remove_node", true⟩,
   ⟨"gephi_bulk_remove_nodes", true⟩,
   ⟨"gephi_query_nodes", true⟩,
   ⟨"gephi_set_node_label", true⟩,
   ⟨"gephi_set_node_position", true⟩,
   ⟨"gephi_batch_set_positions", true⟩,
   ⟨"gephi_add_edge", true⟩,
   ⟨"gephi_add_edges", true⟩,
   ⟨"gephi_remove_edge", true⟩,
   ⟨"gephi_set_edge_weight", true⟩,
   ⟨"gephi_set_edge_label", true⟩,
   ⟨"gephi_query_edges", true⟩,
   ⟨"gephi_get_graph_stats", true⟩,
   ⟨"gephi_get_graph_type", true⟩,
   ⟨"gephi_get_columns", true⟩,
   ⟨"gephi_add_column", true⟩,
   ⟨"gephi_set_node_attributes", true⟩,
   ⟨"gephi_batch_set_node_attributes", true⟩,
   ⟨"gephi_set_edge_attributes", true⟩,
   ⟨"gephi_set_node_color", true⟩,
   ⟨"gephi_set_node_size", true⟩,
   ⟨"gephi_set_edge_color", true⟩,
   ⟨"gephi_batch_set_node_colors", true⟩,
   ⟨"gephi_reset_appearance", true⟩,
   ⟨"gephi_color_by_partition", true⟩,
   ⟨"gephi_color_by_ranking", true⟩,
   ⟨"gephi_size_by_ranking", true⟩,
   ⟨"gephi_run_layout", true⟩,
   ⟨"gephi_stop_layout", true⟩,
   ⟨"gephi_get_layout_status", true⟩,
   ⟨"gephi_get_available_layouts", true⟩,
   ⟨"gephi_get_layout_properties", true⟩,
   ⟨"gephi_set_layout_properties", true⟩,
   ⟨"gephi_compute_modularity", true⟩,
   ⟨"gephi_compute_degree", true⟩,
   ⟨"gephi_compute_betweenness", true⟩,
   ⟨"gephi_compute_pagerank", true⟩,
   ⟨"gephi_compute_connected_components", true⟩,
   ⟨"gephi_compute_clustering_coefficient", true⟩,
   ⟨"gephi_compute_avg_path_length", true⟩,
   ⟨"gephi_compute_hits", true⟩,
   ⟨"gephi_compute_eigenvector", true⟩,
   ⟨"gephi_filter_by_degree", true⟩,
   ⟨"gephi_filter_by_edge_weight", true⟩,
   ⟨"gephi_remove_isolates", true⟩,
   ⟨"gephi_extract_ego_network", true⟩,
   ⟨"gephi_extract_giant_component", true⟩,
   ⟨"gephi_reset_filters", true⟩,
   ⟨"gephi_clear_graph", true⟩,
   ⟨"gephi_edge_thickness_by_weight", true⟩,
   ⟨"gephi_get_preview_settings", true⟩,
   ⟨"gephi_set_preview_settings", true⟩,
   ⟨"gephi_export_gexf", true⟩,
   ⟨"gephi_export_png", true⟩,
   ⟨"gephi_export_pdf", true⟩,
   ⟨"gephi_export_svg", true⟩,
   ⟨"gephi_export_graphml", true⟩,
   ⟨"gephi_export_csv", true⟩,
   ⟨"gephi_import_gexf", true⟩,
   ⟨"gephi_import_graphml", true⟩,
   ⟨"gephi_import_csv", true⟩,
   ⟨"gephi_import_file", true⟩]

/-- Python `dict.get` returns the default exactly when the key is absent. -/
theorem dictGet_of_findKey_none (d : PyDict) (key : String) (dflt : PyVal)
    (h : findKey d key = Option.none) : dictGet d key dflt = dflt := by
  induction d with
  | nil => rfl
  | cons kv rest ih =>
      obtain ⟨k, v⟩ := kv
      by_cases hk : k = key
      · simp [findKey, hk] at h
      · simp [findKey, hk] at h
        simp [dictGet, hk, ih h]

/-- Python `dict.get` returns the stored value when the key is present. -/
theorem dictGet_of_findKey_some (d : PyDict) (key : String) (dflt v : PyVal)
    (h : findKey d key = Option.some v) : dictGet d key dflt = v := by
  induction d with
  | nil => simp [findKey] at h
  | cons kv rest ih =>
      obtain ⟨k, w⟩ := kv
      by_cases hk : k = key
      · simp [findKey, hk] at h
        simp [dictGet, hk, h]
      · simp [findKey, hk] at h
        simp [dictGet, hk, ih h]


/-- The fixed timeout message differs from the connection-error message,
whatever the configured base address is. -/
theorem timeoutMsg_ne_connectMsg (b : String) :
    "Request timed out. The operation may still be running in Gephi." ≠
      "Cannot connect to Gephi at " ++ b ++
        ". Ensure Gephi is running with the MCP plugin installed." := by
  intro h
  have h2 := congrArg String.data h
  simp [String.data_append] at h2

/-- The fixed timeout message differs from every synthesized HTTP-status
message. -/
theorem timeoutMsg_ne_httpMsg (s t : String) :
    "Request timed out. The operation may still be running in Gephi." ≠
      "HTTP " ++ s ++ ": " ++ t := by
  intro h
  have h2 := congrArg String.data h
  simp [String.data_append] at h2

/-- Claim C1: for every invocation of the transport client's request
operation — any method, path, query parameters and body — and every
behaviour of the underlying transport, the operation returns a result (no
transport or decoding exception escapes the embedded total function), and
every result that is not a pass-through of a JSON body decoded from the
application's response is the uniform failure dictionary
`{"success": False, "error": <message>}`, so the caller can branch on the
`success` flag instead of handling exceptions. -/
theorem C1_request_always_returns_uniform_result (c : GephiClient)
    (method endpoint : String) (params : Option (List (String × PyVal)))
    (json_data : Option PyVal) (transport : TransportResult) :
    (∃ response body, transport = TransportResult.completed response ∧
        response.jsonResult = Except.ok body ∧
        (c.request method endpoint params json_data transport).2 = body) ∨
    (∃ msg, (c.request method endpoint params json_data transport).2 =
        failureResult msg) := by
  cases transport with
  | completed response =>
      cases hj : response.jsonResult with
      | ok body =>
          refine Or.inl ⟨response, body, rfl, hj, ?_⟩
          by_cases h : 200 ≤ response.status_code ∧ response.status_code < 300 <;>
            simp [GephiClient.request, h, hj]
      | error msg =>
          by_cases h : 200 ≤ response.status_code ∧ response.status_code < 300
          · exact Or.inr ⟨"Request failed: " ++ msg,
              by simp [GephiClient.request, h, hj]⟩
          · exact Or.inr ⟨"HTTP " ++ toString response.status_code ++ ": " ++
              response.text, by simp [GephiClient.request, h, hj]⟩
  | connectError => exact Or.inr ⟨_, rfl⟩
  | timeoutException => exact Or.inr ⟨_, rfl⟩
  | otherException msg => exact Or.inr ⟨_, rfl⟩

/-- Claim C2: on a completed non-2xx response the client first re-parses the
body as JSON and, when that succeeds, returns the parsed body verbatim;
only when the body is unparseable does it return the failure whose message
is "HTTP <status>: <raw text>". -/
theorem C2_non2xx_two_tier_fallback (c : GephiClient) (method endpoint : String)
    (params : Option (List (String × PyVal))) (json_data : Option PyVal)
    (response : HttpResponse)
    (hs : ¬ (200 ≤ response.status_code ∧ response.status_code < 300)) :
    (∀ body, response.jsonResult = Except.ok body →
        (c.request method endpoint params json_data
            (TransportResult.completed response)).2 = body) ∧
    (∀ msg, response.jsonResult = Except.error msg →
        (c.request method endpoint params json_data
            (TransportResult.completed response)).2 =
          failureResult ("HTTP " ++ toString response.status_code ++ ": " ++
            response.text)) := by
  constructor
  · intro body hb
    simp [GephiClient.request, hs, hb]
  · intro msg hm
    simp [GephiClient.request, hs, hm]

/-- Witness for C2 at the spec's own example: a 404 whose body parses as
`{"success": false, "error": "node not found"}` is passed through verbatim
rather than replaced by a generic HTTP-status message. -/
theorem C2_witness :
    (gephi.request "GET" "/graph/node/n1" Option.none Option.none
        (TransportResult.completed ⟨404, "node not found body",
          Except.ok (PyVal.dict [("success", PyVal.bool false),
            ("error", PyVal.str "node not found")])⟩)).2 =
      PyVal.dict [("success", PyVal.bool false),
        ("error", PyVal.str "node not found")] :=
  (C2_non2xx_two_tier_fallback gephi "GET" "/graph/node/n1" Option.none Option.none
    ⟨404, "node not found body",
      Except.ok (PyVal.dict [("success", PyVal.bool false),
        ("error", PyVal.str "node not found")])⟩ (by decide)).1 _ rfl

/-- Claim C3: whenever the transport reports inability to establish a
connection — whatever the verb, endpoint, query or body of the call — the
client returns the connection-failure dictionary whose message embeds the
configured base address and tells the operator to ensure Gephi is running
with the plugin installed. -/
theorem C3_connect_error_mentions_address (c : GephiClient)
    (method endpoint : String) (params : Option (List (String × PyVal)))
    (json_data : Option PyVal) :
    (c.request method endpoint params json_data TransportResult.connectError).2 =
      failureResult ("Cannot connect to Gephi at " ++ c.base_url ++
        ". Ensure Gephi is running with the MCP plugin installed.") ∧
    ∃ before after,
      "Cannot connect to Gephi at " ++ c.base_url ++
          ". Ensure Gephi is running with the MCP plugin installed." =
        before ++ c.base_url ++ after :=
  ⟨rfl, "Cannot connect to Gephi at ",
    ". Ensure Gephi is running with the MCP plugin installed.", rfl⟩

/-- Claim C4: a call on which the transport's timeout budget expires yields
the timeout failure dictionary, whose message notes the remote operation
may still be running in Gephi, and that outcome differs both from the
connection-error outcome and from every synthesized HTTP-status-error
outcome. -/
theorem C4_timeout_outcome_distinct (c : GephiClient) (method endpoint : String)
    (params : Option (List (String × PyVal))) (json_data : Option PyVal) :
    (c.request method endpoint params json_data TransportResult.timeoutException).2 =
      failureResult "Request timed out. The operation may still be running in Gephi." ∧
    (c.request method endpoint params json_data TransportResult.timeoutException).2 ≠
      (c.request method endpoint params json_data TransportResult.connectError).2 ∧
    (∀ response msg, response.jsonResult = Except.error msg →
      ¬ (200 ≤ response.status_code ∧ response.status_code < 300) →
      (c.request method endpoint params json_data TransportResult.timeoutException).2 ≠
        (c.request method endpoint params json_data
          (TransportResult.completed response)).2) := by
  refine ⟨rfl, ?_, ?_⟩
  · intro h
    have h2 : "Request timed out. The operation may still be running in Gephi." =
        "Cannot connect to Gephi at " ++ c.base_url ++
          ". Ensure Gephi is running with the MCP plugin installed." := by
      simpa [GephiClient.request, failureResult] using h
    exact timeoutMsg_ne_connectMsg c.base_url h2
  · intro response msg hm hs h
    have h2 : "Request timed out. The operation may still be running in Gephi." =
        "HTTP " ++ toString response.status_code ++ ": " ++ response.text := by
      simpa [GephiClient.request, failureResult, hs, hm] using h
    exact timeoutMsg_ne_httpMsg (toString response.status_code) response.text h2

/-- Witness for C4 at a concrete call: the timeout outcome of a layout run
differs from the HTTP-500 outcome of the same call with an unparseable
body. -/
theorem C4_witness :
    (gephi.request "POST" "/layout/run" Option.none Option.none
        TransportResult.timeoutException).2 ≠
      (gephi.request "POST" "/layout/run" Option.none Option.none
        (TransportResult.completed ⟨500, "Internal Server Error",
          Except.error "Expecting value: line 1 column 1 (char 0)"⟩)).2 :=
  (C4_timeout_outcome_distinct gephi "POST" "/layout/run"
      Option.none Option.none).2.2
    ⟨500, "Internal Server Error", Except.error "Expecting value: line 1 column 1 (char 0)"⟩
    "Expecting value: line 1 column 1 (char 0)" rfl (by decide)

/-- Counterexample to claim C5: a 2xx response whose body fails to decode as
JSON is recovered by the final catch-all `except Exception` handler, so its
outcome is literally identical to the catch-all (`other`-kind) outcome for
the same exception message — there is no decode-error outcome
distinguishable from the catch-all kind. -/
theorem C5_counterexample :
    (gephi.request "GET" "/graph/stats" Option.none Option.none
        (TransportResult.completed ⟨200, "<html>oops</html>",
          Except.error "Expecting value: line 1 column 1 (char 0)"⟩)).2 =
      (gephi.request "GET" "/graph/stats" Option.none Option.none
        (TransportResult.otherException
          "Expecting value: line 1 column 1 (char 0)")).2 ∧
    (gephi.request "GET" "/graph/stats" Option.none Option.none
        (TransportResult.completed ⟨200, "<html>oops</html>",
          Except.error "Expecting value: line 1 column 1 (char 0)"⟩)).2 =
      failureResult "Request failed: Expecting value: line 1 column 1 (char 0)" := by
  constructor <;> rfl

/-- Claim C5 amended: a 2xx status with a body that parses as JSON yields the
parsed body, and a 2xx status whose body fails to parse yields a failure
outcome — but that failure is produced by the generic catch-all handler,
with message "Request failed: <decode exception message>", identical to the
`other`-kind outcome for the same exception rather than a distinct
decode-error kind. -/
theorem C5_amended_2xx_decode_failure_is_catch_all (c : GephiClient)
    (method endpoint : String) (params : Option (List (String × PyVal)))
    (json_data : Option PyVal) (response : HttpResponse)
    (hs : 200 ≤ response.status_code ∧ response.status_code < 300) :
    (∀ body, response.jsonResult = Except.ok body →
        (c.request method endpoint params json_data
            (TransportResult.completed response)).2 = body) ∧
    (∀ msg, response.jsonResult = Except.error msg →
        (c.request method endpoint params json_data
            (TransportResult.completed response)).2 =
          failureResult ("Request failed: " ++ msg) ∧
        (c.request method endpoint params json_data
            (TransportResult.completed response)).2 =
          (c.request method endpoint params json_data
            (TransportResult.otherException msg)).2) := by
  constructor
  · intro body hb
    simp [GephiClient.request, hs, hb]
  · intro msg hm
    constructor
    · simp [GephiClient.request, hs, hm]
    · simp [GephiClient.request, hs, hm]

/-- Witness for C5 (amended) at a concrete call: a 200 response whose body
parses as `{"success": true}` yields exactly that parsed body. -/
theorem C5_witness :
    (gephi.request "GET" "/health" Option.none Option.none
        (TransportResult.completed ⟨200, "health body",
          Except.ok (PyVal.dict [("success", PyVal.bool true)])⟩)).2 =
      PyVal.dict [("success", PyVal.bool true)] :=
  (C5_amended_2xx_decode_failure_is_catch_all gephi "GET" "/health"
    Option.none Option.none
    ⟨200, "health body", Except.ok (PyVal.dict [("success", PyVal.bool true)])⟩
    (by decide)).1 _ rfl

/-- Claim C6: both listing operations issue their transport call with query
parameters defaulting to limit=100 and offset=0 when the caller's parameter
object lacks those keys, and with the caller's own values when it supplies
them. -/
theorem C6_pagination_defaults (params : PyDict) (transport : TransportResult) :
    (findKey params "limit" = Option.none → findKey params "offset" = Option.none →
      (gephi_query_nodes params transport).1.params =
        Option.some [("limit", PyVal.int 100), ("offset", PyVal.int 0)] ∧
      (gephi_query_edges params transport).1.params =
        Option.some [("limit", PyVal.int 100), ("offset", PyVal.int 0)]) ∧
    (∀ lim off, findKey params "limit" = Option.some lim →
      findKey params "offset" = Option.some off →
      (gephi_query_nodes params transport).1.params =
        Option.some [("limit", lim), ("offset", off)] ∧
      (gephi_query_edges params transport).1.params =
        Option.some [("limit", lim), ("offset", off)]) := by
  constructor
  · intro hl ho
    constructor <;>
      simp [gephi_query_nodes, gephi_query_edges, GephiClient.request,
        dictGet_of_findKey_none _ _ _ hl, dictGet_of_findKey_none _ _ _ ho]
  · intro lim off hl ho
    constructor <;>
      simp [gephi_query_nodes, gephi_query_edges, GephiClient.request,
        dictGet_of_findKey_some _ _ _ _ hl, dictGet_of_findKey_some _ _ _ _ ho]

/-- Witness for C6 at concrete inputs: with an empty parameter object the
node listing issues limit=100 and offset=0, and with caller-supplied
pagination the edge listing issues the caller's values. -/
theorem C6_witness :
    (gephi_query_nodes [] TransportResult.connectError).1.params =
      Option.some [("limit", PyVal.int 100), ("offset", PyVal.int 0)] ∧
    (gephi_query_edges [("limit", PyVal.int 25), ("offset", PyVal.int 50)]
        TransportResult.connectError).1.params =
      Option.some [("limit", PyVal.int 25), ("offset", PyVal.int 50)] :=
  ⟨((C6_pagination_defaults [] TransportResult.connectError).1 rfl rfl).1,
   ((C6_pagination_defaults [("limit", PyVal.int 25), ("offset", PyVal.int 50)]
      TransportResult.connectError).2 (PyVal.int 25) (PyVal.int 50) rfl rfl).2⟩

/-- Counterexample to claim C7: a workspace-switch invocation with an empty
parameter object issues a POST whose JSON body is the empty dictionary and
whose query-parameter mapping is absent — no index, defaulted or otherwise,
appears anywhere in the issued call, so the bridge does not issue index 0
for the switch operation. -/
theorem C7_counterexample :
    (gephi_switch_workspace [] TransportResult.connectError).1.json =
      Option.some (PyVal.dict []) ∧
    (gephi_switch_workspace [] TransportResult.connectError).1.params =
      Option.none ∧
    (gephi_switch_workspace [] TransportResult.connectError).1.json ≠
      Option.some (PyVal.dict [("index", PyVal.int 0)]) := by
  refine ⟨rfl, rfl, ?_⟩
  intro h
  simp [gephi_switch_workspace, GephiClient.request] at h

/-- Claim C7 amended: of the two index-addressed workspace operations only
workspace-delete defaults the index at the bridge — an omitted index is
sent as the query parameter index="0" — while workspace-switch forwards the
caller's parameter object verbatim as the request body with no query
parameters and no local defaulting, so an omitted index is simply absent
from the issued call. -/
theorem C7_amended_delete_defaults_switch_forwards (params : PyDict)
    (transport : TransportResult) :
    (findKey params "index" = Option.none →
      (gephi_delete_workspace params transport).1.params =
        Option.some [("index", PyVal.str "0")]) ∧
    (gephi_switch_workspace params transport).1.json =
      Option.some (PyVal.dict params) ∧
    (gephi_switch_workspace params transport).1.params = Option.none := by
  refine ⟨?_, rfl, rfl⟩
  intro h
  simp [gephi_delete_workspace, GephiClient.request,
    dictGet_of_findKey_none _ _ _ h, pyStr, pyRepr]
  rfl

/-- Witness for C7 (amended) at a concrete input: deleting with an empty
parameter object issues the query parameter index="0". -/
theorem C7_witness :
    (gephi_delete_workspace [] TransportResult.connectError).1.params =
      Option.some [("index", PyVal.str "0")] :=
  (C7_amended_delete_defaults_switch_forwards [] TransportResult.connectError).1 rfl

/-- Counterexample to claim C8: the caller-facing calling convention is not
identical across the catalog — the catalog contains the health-check
operation whose Python function takes no parameter object at all, so not
every operation accepts a single parameter object. -/
theorem C8_counterexample :
    ToolDecl.mk "gephi_health_check" false ∈ gephiToolCatalog ∧
    ¬ (∀ t ∈ gephiToolCatalog, t.takesParams = true) := by
  constructor
  · decide
  · intro h
    exact absurd (h ⟨"gephi_health_check", false⟩ (by decide)) (by decide)

/-- Claim C8 amended: every operation of the catalog accepts a single
(possibly empty) parameter object, with the single exception of the health
check, whose function takes no parameter object at all. -/
theorem C8_amended_uniform_except_health_check :
    ∀ t ∈ gephiToolCatalog,
      t.name = "gephi_health_check" ∨ t.takesParams = true := by
  decide

/-- Witness for C8 (amended) at a concrete catalog entry: the parameterless
workspace-creation operation still takes a parameter object. -/
theorem C8_witness :
    (ToolDecl.mk "gephi_new_workspace" true).name = "gephi_health_check" ∨
      (ToolDecl.mk "gephi_new_workspace" true).takesParams = true :=
  C8_amended_uniform_except_health_check ⟨"gephi_new_workspace", true⟩ (by decide)

/-- Rewriting a bind whose first component is known to succeed. -/
theorem except_bind_ok {α β γ : Type} {e : Except α β} {b : β}
    (f : β → Except α γ) (h : e = Except.ok b) : (e >>= f) = f b := by
  rw [h]; rfl

mutual
/-- Rendering succeeds on every serializable value. -/
theorem dumpVal_ok : (lvl : Nat) → (v : PyVal) → serializable v = true →
    ∃ s, dumpVal lvl v = Except.ok s
  | _, .none, _ => ⟨"null", rfl⟩
  | _, .bool b, _ => ⟨if b then "true" else "false", rfl⟩
  | _, .int n, _ => ⟨toString n, rfl⟩
  | _, .str s, _ => ⟨jsonQuote s, rfl⟩
  | _, .object tyName, h => absurd h (by simp [serializable])
  | _, .list [], _ => ⟨"[]", rfl⟩
  | lvl, .list (x :: xs), h => by
      obtain ⟨items, hi⟩ :=
        dumpList_ok (lvl + 1) (x :: xs) (by simpa [serializable] using h)
      exact ⟨_, by simp only [dumpVal]; rw [except_bind_ok _ hi]⟩
  | _, .dict [], _ => ⟨"\x7b\x7d", rfl⟩
  | lvl, .dict (kv :: kvs), h => by
      obtain ⟨items, hi⟩ :=
        dumpDict_ok (lvl + 1) (kv :: kvs) (by simpa [serializable] using h)
      exact ⟨_, by simp only [dumpVal]; rw [except_bind_ok _ hi]⟩

/-- Rendering succeeds on every list of serializable values. -/
theorem dumpList_ok : (lvl : Nat) → (xs : List PyVal) →
    serializableList xs = true → ∃ out, dumpList lvl xs = Except.ok out
  | _, [], _ => ⟨[], rfl⟩
  | lvl, x :: xs, h => by
      have hx : serializable x = true :=
        (Bool.and_eq_true _ _ |>.mp (by simpa [serializableList] using h)).1
      have hxs : serializableList xs = true :=
        (Bool.and_eq_true _ _ |>.mp (by simpa [serializableList] using h)).2
      obtain ⟨s, hs⟩ := dumpVal_ok lvl x hx
      obtain ⟨rest, hrest⟩ := dumpList_ok lvl xs hxs
      exact ⟨_, by
        simp only [dumpList]
        rw [except_bind_ok _ hs, except_bind_ok _ hrest]⟩

/-- Rendering succeeds on every dict whose values are serializable. -/
theorem dumpDict_ok : (lvl : Nat) → (kvs : List (String × PyVal)) →
    serializableDict kvs = true → ∃ out, dumpDict lvl kvs = Except.ok out
  | _, [], _ => ⟨[], rfl⟩
  | lvl, (k, v) :: kvs, h => by
      have hv : serializable v = true :=
        (Bool.and_eq_true _ _ |>.mp (by simpa [serializableDict] using h)).1
      have hkvs : serializableDict kvs = true :=
        (Bool.and_eq_true _ _ |>.mp (by simpa [serializableDict] using h)).2
      obtain ⟨s, hs⟩ := dumpVal_ok lvl v hv
      obtain ⟨rest, hrest⟩ := dumpDict_ok lvl kvs hkvs
      exact ⟨_, by
        simp only [dumpDict]
        rw [except_bind_ok _ hs, except_bind_ok _ hrest]⟩
end

/-- Counterexample to claim C9: applied to a mapping holding a value with no
JSON serialization (here a Python set), the formatter raises `TypeError` —
the `Except.error` outcome — instead of coercing the value to its string
form and returning text. -/
theorem C9_counterexample :
    fmt (PyVal.dict [("result", PyVal.object "set")]) =
      Except.error "Object of type set is not JSON serializable" := by
  rfl

/-- Claim C9 amended: the formatter is a pure function that deterministically
pretty-prints every JSON-serializable value, preserving the mapping's
insertion key order — the spec's example mapping renders with both keys,
original values and key order preserved, and the reversed insertion order
renders in the reversed order — but a value with no JSON serialization
makes it raise rather than coerce. -/
theorem C9_amended_fmt_total_on_serializable_order_preserving :
    (∀ v, serializable v = true → ∃ s, fmt v = Except.ok s) ∧
    fmt (PyVal.dict [("success", PyVal.bool true), ("nodeCount", PyVal.int 5)]) =
      Except.ok "\x7b\n  \"success\": true,\n  \"nodeCount\": 5\n\x7d" ∧
    fmt (PyVal.dict [("nodeCount", PyVal.int 5), ("success", PyVal.bool true)]) =
      Except.ok "\x7b\n  \"nodeCount\": 5,\n  \"success\": true\n\x7d" :=
  ⟨fun v h => dumpVal_ok 0 v h, by rfl, by rfl⟩

/-- Witness for C9 (amended) at a concrete serializable value: the uniform
failure dictionary always renders. -/
theorem C9_witness :
    serializable (failureResult "Request timed out.") = true ∧
    ∃ s, fmt (failureResult "Request timed out.") = Except.ok s :=
  ⟨rfl, C9_amended_fmt_total_on_serializable_order_preserving.1
    (failureResult "Request timed out.") rfl⟩

/-- Claim C10: a single-node removal invoked with a parameter object lacking
the "id" key defaults the node identifier to the empty string and issues a
DELETE to the node path with an empty trailing identifier segment — the
invocation is not rejected locally, and the issued call carries no query
parameters and no body, leaving detection of the malformed input to Gephi's
response. -/
theorem C10_remove_node_empty_id_segment (params : PyDict)
    (transport : TransportResult) (h : findKey params "id" = Option.none) :
    (gephi_remove_node params transport).1 =
      SentRequest.mk "DELETE" "http://127.0.0.1:8080/graph/node/"
        Option.none Option.none := by
  have hid : dictGet params "id" (PyVal.str "") = PyVal.str "" :=
    dictGet_of_findKey_none _ _ _ h
  simp [gephi_remove_node, GephiClient.request, hid, pyStr]
  rfl

/-- Witness for C10 at the empty parameter object. -/
theorem C10_witness :
    (gephi_remove_node [] TransportResult.connectError).1 =
      SentRequest.mk "DELETE" "http://127.0.0.1:8080/graph/node/"
        Option.none Option.none :=
  C10_remove_node_empty_id_segment [] TransportResult.connectError rfl
